import Mathlib

/-!
Shallow embedding of `rpi_vidlooper/vidlooper.py` (the whole program is one
module).  The controller state, its configuration, the GPIO output levels and
the VLC player session are modelled explicitly; the pin-switch callback
`switch_vid`, the idle-poll loop body of `start`, the constructor
`VidLooper.__init__` and the `--gpio-pins` argument parser `_GpioParser` are
translated function by function from the source.  Machine-level concerns
(threads, the mutex, real GPIO electrical state) are modelled as the
sequential state transformers they guard.
-/

/-- Errors a Python expression of this program can raise at runtime.
`indexError` models `IndexError` from a list subscript out of range;
`nameError n` models `NameError: name n is not defined`. -/
inductive PyError
  | indexError
  | nameError (name : String)
deriving DecidableEq, Repr

/-- Configuration-time errors raised by `VidLooper.__init__`
(vidlooper.py lines 69-83): `FileNotFoundError` for a missing explicit
video, the "No videos found" `Exception` for an empty directory scan, and
the `AssertionError` from the videos-vs-pins assert. -/
inductive InitError
  | fileNotFound (path : String)
  | noVideos (dir : String)
  | assertionError
deriving DecidableEq, Repr

/-- External side effects performed by `VidLooper.__init__`.  GPIO setup is
listed for completeness: `__init__` never performs it (all GPIO setup lives
in `start`), and the playback engine is created only at line 94, after every
configuration check. -/
inductive Effect
  | vlcInstance (audio : String)
  | gpioSetup (pin : Nat)
deriving DecidableEq, Repr

/-- The fields `__init__` stores on a successfully constructed `VidLooper`
(vidlooper.py lines 61-95).  `gpio_pins` is the insertion-ordered dict of
input pin to optional output pin, modelled as an association list. -/
structure Config where
  audio : String
  autostart : Bool
  restart_on_press : Bool
  videos : List String
  gpio_pins : List (Nat × Option Nat)
  loop : Bool
  no_osd : Bool
  shutdown_pin : Option Nat
  splash : Option String
  debug : Bool
deriving DecidableEq, Repr

/-- The VLC media-player session (`self._player`).  `media` is the loaded
media path (`set_media`), `playing` the play/stop state, and
`repeatForever` whether the loaded media carries the `input-repeat=-1`
option added at line 120.  A freshly created media (`media_new`) carries no
options, so loading a new media clears `repeatForever`. -/
structure Player where
  media : Option String
  playing : Bool
  repeatForever : Bool
deriving DecidableEq, Repr

/-- `self._player.stop()` (line 100). -/
def player_stop (p : Player) : Player := { p with playing := false }

/-- `self._player.set_media(media)` (lines 115 and 119): loads the media;
the repeat option belongs to the media object, so it resets. -/
def player_set_media (p : Player) (m : String) : Player :=
  { p with media := some m, repeatForever := false }

/-- `self._player.play()` (line 116). -/
def player_play (p : Player) : Player := { p with playing := true }

/-- `self._player.get_media().add_option("input-repeat=-1")` (line 120). -/
def player_add_repeat (p : Player) : Player := { p with repeatForever := true }

/-- Mutable run-time state of the controller: the GPIO output levels
(`true` = HIGH), the `_active_vid` record, the player session and the
splash-viewer process handle (`_splashproc`, holding the image shown). -/
structure PState where
  outputs : Nat → Bool
  active_vid : Option String
  player : Player
  splashproc : Option String

/-- Pointwise update of the GPIO output map: `GPIO.output(q, b)`. -/
def updOut (f : Nat → Bool) (q : Nat) (b : Bool) : Nat → Bool :=
  fun x => if x = q then b else f x

/-- The LED loop of `switch_vid` (lines 105-108): for every `(in_pin,
out_pin)` entry in order, if the entry has an output pin, drive it HIGH
when `in_pin == pin` and LOW otherwise. -/
def writeOutputs (pins : List (Nat × Option Nat)) (pin : Nat)
    (out : Nat → Bool) : Nat → Bool :=
  match pins with
  | [] => out
  | p :: rest =>
    match p.2 with
    | some op => writeOutputs rest pin (updOut out op (decide (p.1 = pin)))
    | none => writeOutputs rest pin out

/-- The loops at lines 135-139 and 164-166: drive every configured output
pin LOW, in order. -/
def clearOutputs (pins : List (Nat × Option Nat)) (out : Nat → Bool) :
    Nat → Bool :=
  match pins with
  | [] => out
  | p :: rest =>
    match p.2 with
    | some op => clearOutputs rest (updOut out op false)
    | none => clearOutputs rest out

/-- `self.in_pins` (lines 124-127): the tuple of dict keys in order. -/
def in_pins (c : Config) : List Nat := c.gpio_pins.map Prod.fst

/-- Python `list.index` for a present element: index of the first
occurrence; returns the length when absent (where Python would raise
`ValueError`; callbacks are only registered on present pins). -/
def pyIndex (l : List Nat) (x : Nat) : Nat :=
  match l with
  | [] => 0
  | y :: ys => if y = x then 0 else pyIndex ys x + 1

/-- `switch_vid` after the LED-rewrite loop (lines 110-122): resolve the
pressed pin to a video by ordinal; on an in-range index, restart playback
only when the video differs from `_active_vid` or `restart_on_press` is
set; an out-of-range index raises `IndexError` (the LED writes have
already happened by then). -/
def switchAfterLeds (c : Config) (pin : Nat) (s1 : PState) :
    PState × Option PyError :=
  match c.videos[pyIndex (in_pins c) pin]? with
  | none => (s1, some PyError.indexError)
  | some filename =>
    if some filename ≠ s1.active_vid ∨ c.restart_on_press = true then
      ({ s1 with
          player :=
            player_play (player_set_media (player_stop s1.player) filename)
              |> fun p2 =>
                if c.loop then player_add_repeat (player_set_media p2 filename)
                else p2,
          active_vid := some filename }, none)
    else (s1, none)

/-- `VidLooper.switch_vid(pin)` (lines 102-122): rewrite every configured
output pin (HIGH only on the entry matching `pin`), then resolve and
possibly restart playback.  The returned `Option PyError` is the exception
propagating out of the callback, if any; the returned state holds the
side effects performed up to that point. -/
def switch_vid (c : Config) (pin : Nat) (s : PState) :
    PState × Option PyError :=
  switchAfterLeds c pin
    { s with outputs := writeOutputs c.gpio_pins pin s.outputs }

/-- Evaluating `updOut` at a point. -/
theorem updOut_apply (f : Nat → Bool) (q b x) :
    updOut f q b x = if x = q then b else f x := rfl

/-- Writing back the value already present changes nothing. -/
theorem updOut_self (f : Nat → Bool) (q : Nat) : updOut f q (f q) = f := by
  funext x
  by_cases h : x = q <;> simp [updOut, h]

/-- If every configured output pin already holds exactly the level the LED
loop would write for `pin`, the loop leaves the output map unchanged. -/
theorem writeOutputs_id (pins : List (Nat × Option Nat)) (pin : Nat)
    (out : Nat → Bool)
    (H : ∀ p ∈ pins, ∀ q, p.2 = some q → out q = decide (p.1 = pin)) :
    writeOutputs pins pin out = out := by
  induction pins with
  | nil => rfl
  | cons p rest ih =>
    cases hp : p.2 with
    | none =>
      simp only [writeOutputs, hp]
      exact ih fun p hmem q hq => H p (List.mem_cons_of_mem _ hmem) q hq
    | some op =>
      have hval : out op = decide (p.1 = pin) := H p (List.mem_cons_self _ _) op hp
      simp only [writeOutputs, hp, ← hval, updOut_self]
      exact ih fun p hmem q hq => H p (List.mem_cons_of_mem _ hmem) q hq

/-- The input pin of the last entry in `pins` whose output pin is `q`:
this entry's write is the one that survives the LED loop on pin `q`. -/
def lastWriter : List (Nat × Option Nat) → Nat → Option Nat
  | [], _ => none
  | p :: rest, q =>
    match lastWriter rest q with
    | some i => some i
    | none => if p.2 = some q then some p.1 else none

/-- Value of the LED loop at a pin `q`: the level written by the last
entry targeting `q` (HIGH iff that entry's input pin is the pressed one),
or the prior level when no entry targets `q`. -/
theorem writeOutputs_apply (pins : List (Nat × Option Nat)) (pin : Nat)
    (out : Nat → Bool) (q : Nat) :
    writeOutputs pins pin out q =
      match lastWriter pins q with
      | some i => decide (i = pin)
      | none => out q := by
  induction pins generalizing out with
  | nil => rfl
  | cons p rest ih =>
    cases hp : p.2 with
    | none =>
      simp only [writeOutputs, hp, lastWriter, ih]
      cases hl : lastWriter rest q <;> simp [hp]
    | some op =>
      simp only [writeOutputs, hp, lastWriter, ih]
      cases hl : lastWriter rest q with
      | some i => simp
      | none =>
        by_cases hq : q = op <;>
          simp [updOut, hp, hq, Option.some_inj, eq_comm]

/-- `lastWriter` returns an actual entry of the list. -/
theorem lastWriter_mem (pins : List (Nat × Option Nat)) (q i : Nat)
    (h : lastWriter pins q = some i) : (i, some q) ∈ pins := by
  induction pins with
  | nil => simp [lastWriter] at h
  | cons p rest ih =>
    simp only [lastWriter] at h
    cases hl : lastWriter rest q with
    | some j =>
      rw [hl] at h
      exact List.mem_cons_of_mem _ (ih (h ▸ hl))
    | none =>
      rw [hl] at h
      by_cases hp : p.2 = some q
      · simp only [hp, if_pos rfl] at h
        cases h
        have : p = (p.1, some q) := by
          cases p with
          | mk a b => simpa using hp
        exact this ▸ List.mem_cons_self _ _
      · simp [hp] at h

/-- An output pin that some entry targets has a last writer, itself an
entry targeting that pin. -/
theorem mem_lastWriter (pins : List (Nat × Option Nat)) (a q : Nat)
    (h : (a, some q) ∈ pins) :
    ∃ i, lastWriter pins q = some i ∧ (i, some q) ∈ pins := by
  induction pins with
  | nil => simp at h
  | cons p rest ih =>
    rcases List.mem_cons.1 h with hh | ht
    · cases hl : lastWriter rest q with
      | some j =>
        exact ⟨j, by simp [lastWriter, hl],
          List.mem_cons_of_mem _ (lastWriter_mem rest q j hl)⟩
      | none =>
        refine ⟨p.1, ?_, ?_⟩
        · simp [lastWriter, hl, ← hh]
        · have : p = (p.1, some q) := by rw [← hh]
          exact this ▸ List.mem_cons_self _ _
    · rcases ih ht with ⟨i, hl, hm⟩
      exact ⟨i, by simp [lastWriter, hl], List.mem_cons_of_mem _ hm⟩

/-- In an association list with distinct keys (a Python dict), the value
of a key is unique. -/
theorem nodupKeys_snd_eq (pins : List (Nat × Option Nat))
    (h : (pins.map Prod.fst).Nodup) (a : Nat) (b1 b2 : Option Nat)
    (h1 : (a, b1) ∈ pins) (h2 : (a, b2) ∈ pins) : b1 = b2 := by
  induction pins with
  | nil => simp at h1
  | cons p rest ih =>
    rw [List.map_cons, List.nodup_cons] at h
    rcases List.mem_cons.1 h1 with e1 | m1 <;>
      rcases List.mem_cons.1 h2 with e2 | m2
    · rw [← e1] at e2
      exact congrArg Prod.snd e2.symm
    · exact absurd (List.mem_map_of_mem Prod.fst m2)
        (by rw [← e1] at h; exact h.1)
    · exact absurd (List.mem_map_of_mem Prod.fst m1)
        (by rw [← e2] at h; exact h.1)
    · exact ih h.2 m1 m2

/-- `q` is an output pin of some entry of the pin mapping. -/
def isOutPin (c : Config) (q : Nat) : Prop :=
  ∃ p ∈ c.gpio_pins, p.2 = some q

/-- Boolean form of `isOutPin`. -/
def hasOut (pins : List (Nat × Option Nat)) (q : Nat) : Bool :=
  pins.any fun p => decide (p.2 = some q)

theorem hasOut_iff (c : Config) (q : Nat) :
    hasOut c.gpio_pins q = true ↔ isOutPin c q := by
  simp [hasOut, isOutPin, List.any_eq_true]

/-- Value of the LOW-reset loop at a pin: LOW on every configured output
pin, unchanged elsewhere. -/
theorem clearOutputs_apply (pins : List (Nat × Option Nat))
    (out : Nat → Bool) (q : Nat) :
    clearOutputs pins out q = if hasOut pins q then false else out q := by
  induction pins generalizing out with
  | nil => simp [clearOutputs, hasOut]
  | cons p rest ih =>
    cases hp : p.2 with
    | none =>
      simp only [clearOutputs, hp, ih, hasOut, List.any_cons]
      simp [hp]
    | some op =>
      simp only [clearOutputs, hp, ih, hasOut, List.any_cons]
      by_cases hq : q = op
      · subst hq
        by_cases hrest : rest.any (fun p => decide (p.2 = some q)) = true <;>
          simp [hrest, hp, updOut]
      · simp only [hp, decide_eq_true_eq, Option.some_inj]
        have : ¬(op = q) := fun e => hq e.symm
        simp [this, updOut, hq, hasOut]

/-- One iteration of the idle wait loop of `start` (lines 160-167), after
the 0.5 s sleep.  `ended` tells whether `self._player.get_state()`
returned `vlc.State.Ended`; the player is always present on a constructed
instance (`__init__` line 95).  When looping is disabled and the stream
ended, every configured output pin is driven LOW and `_active_vid` is
cleared; otherwise the body does nothing. -/
def pollStep (c : Config) (ended : Bool) (s : PState) : PState :=
  if c.loop = false ∧ ended = true then
    { s with outputs := clearOutputs c.gpio_pins s.outputs,
             active_vid := none }
  else s

/-- One event observable by the controller after `start` has initialized
the pins: a debounced falling edge on a registered input pin (which runs
`switch_vid`, lines 155-157), or one idle-poll iteration with the player
reporting `ended`. -/
inductive Step (c : Config) : PState → PState → Prop
  | press (pin : Nat) (s : PState) (hpin : pin ∈ in_pins c) :
      Step c s (switch_vid c pin s).1
  | poll (ended : Bool) (s : PState) : Step c s (pollStep c ended s)

/-- States reachable from `start`'s GPIO initialization (lines 134-139:
every configured output pin driven LOW) by any sequence of events.  The
`base` state carries the arbitrary pre-existing electrical levels of
unconfigured pins. -/
inductive Reach (c : Config) : PState → Prop
  | init (base : PState) :
      Reach c { base with outputs := clearOutputs c.gpio_pins base.outputs }
  | step {s t : PState} : Reach c s → Step c s t → Reach c t

/-- At most one configured output pin is HIGH. -/
def atMostOneHigh (c : Config) (out : Nat → Bool) : Prop :=
  ∀ q1 q2, isOutPin c q1 → isOutPin c q2 →
    out q1 = true → out q2 = true → q1 = q2

/-- `switch_vid` always rewrites the outputs with the LED loop, whatever
happens afterwards. -/
theorem switch_vid_outputs (c : Config) (pin : Nat) (s : PState) :
    ((switch_vid c pin s).1).outputs = writeOutputs c.gpio_pins pin s.outputs := by
  unfold switch_vid switchAfterLeds
  cases c.videos[pyIndex (in_pins c) pin]? with
  | none => rfl
  | some filename =>
    by_cases h : some filename ≠ s.active_vid ∨ c.restart_on_press = true <;>
      simp [h]

/-- A state whose configured output pins are all LOW trivially has at
most one HIGH. -/
theorem atMostOneHigh_clear (c : Config) (out : Nat → Bool) :
    atMostOneHigh c (clearOutputs c.gpio_pins out) := by
  intro q1 q2 h1 _ e1 _
  rw [clearOutputs_apply, if_pos ((hasOut_iff c q1).2 h1)] at e1
  cases e1

/-- After the LED loop, at most one configured output pin is HIGH,
because the dict keys (input pins) are distinct: a pin is left HIGH only
if its last writer is the entry of the pressed pin, and that entry is
unique. -/
theorem atMostOneHigh_write (c : Config)
    (hN : (c.gpio_pins.map Prod.fst).Nodup) (pin : Nat) (out : Nat → Bool) :
    atMostOneHigh c (writeOutputs c.gpio_pins pin out) := by
  intro q1 q2 h1 h2 e1 e2
  rcases h1 with ⟨p1, hp1, hs1⟩
  rcases h2 with ⟨p2, hp2, hs2⟩
  rcases mem_lastWriter c.gpio_pins p1.1 q1 (by
      have : p1 = (p1.1, some q1) := by
        cases p1 with
        | mk a b => simpa using hs1
      exact this ▸ hp1) with ⟨i1, hl1, hm1⟩
  rcases mem_lastWriter c.gpio_pins p2.1 q2 (by
      have : p2 = (p2.1, some q2) := by
        cases p2 with
        | mk a b => simpa using hs2
      exact this ▸ hp2) with ⟨i2, hl2, hm2⟩
  rw [writeOutputs_apply, hl1] at e1
  rw [writeOutputs_apply, hl2] at e2
  have hi1 : i1 = pin := of_decide_eq_true e1
  have hi2 : i2 = pin := of_decide_eq_true e2
  rw [hi1] at hm1
  rw [hi2] at hm2
  have := nodupKeys_snd_eq c.gpio_pins hN pin (some q1) (some q2) hm1 hm2
  exact Option.some_inj.1 this

/-- C1: in a state where video `V` is active and the configured output
pins already show exactly `V`'s button (the pressed pin's output HIGH,
every other configured output LOW), pressing the pin that resolves to `V`
with `restart_on_press` disabled returns the state completely unchanged —
active-video record, player session and every output level — and raises
nothing. -/
theorem c1_press_active_pin_noop (c : Config) (pin : Nat) (s : PState)
    (V : String)
    (hres : c.restart_on_press = false)
    (hactive : s.active_vid = some V)
    (hvid : c.videos[pyIndex (in_pins c) pin]? = some V)
    (hleds : ∀ p ∈ c.gpio_pins, ∀ q, p.2 = some q →
      s.outputs q = decide (p.1 = pin)) :
    switch_vid c pin s = (s, none) := by
  have hw : writeOutputs c.gpio_pins pin s.outputs = s.outputs :=
    writeOutputs_id _ _ _ hleds
  have h1 : switch_vid c pin s = switchAfterLeds c pin s := by
    unfold switch_vid
    rw [hw]
  rw [h1]
  unfold switchAfterLeds
  rw [hvid]
  simp [hactive, hres]

/-- Configuration used to witness C1: two videos on the default-style
mapping `{17: 27, 22: None}`. -/
def cW1 : Config :=
  { audio := "hdmi", autostart := true, restart_on_press := false,
    videos := ["A.mp4", "B.mp4"], gpio_pins := [(17, some 27), (22, none)],
    loop := true, no_osd := false, shutdown_pin := none, splash := none,
    debug := false }

/-- State used to witness C1: `A.mp4` active, its LED (pin 27) HIGH. -/
def sW1 : PState :=
  { outputs := fun q => decide (q = 27), active_vid := some "A.mp4",
    player := { media := some "A.mp4", playing := true, repeatForever := true },
    splashproc := none }

/-- Witness for C1 at the concrete configuration `cW1`, pressing pin 17
while `A.mp4` is active. -/
theorem c1_press_active_pin_noop_witness :
    switch_vid cW1 17 sW1 = (sW1, none) := by
  apply c1_press_active_pin_noop cW1 17 sW1 "A.mp4" rfl rfl rfl
  intro p hp q hq
  simp only [cW1, List.mem_cons, List.not_mem_nil, or_false] at hp
  rcases hp with h | h <;> subst h <;> simp_all [sW1]

/-- No two entries of the pin mapping share an output pin. -/
def outPinsInjective (c : Config) : Prop :=
  ∀ p1 ∈ c.gpio_pins, ∀ p2 ∈ c.gpio_pins, ∀ q : Nat,
    p1.2 = some q → p2.2 = some q → p1.1 = p2.1

/-- C2 (amended): with the dict's distinct input pins, every state
reachable from `start`'s initialization by presses and idle polls has at
most one configured output pin HIGH; and — provided additionally that no
two entries share an output pin — after `switch_vid pin` the configured
output pins that are HIGH are exactly the one mapped to `pin`. -/
theorem c2_single_active_led (c : Config)
    (hN : (c.gpio_pins.map Prod.fst).Nodup) :
    (∀ s, Reach c s → atMostOneHigh c s.outputs) ∧
    (outPinsInjective c → ∀ (pin : Nat) (s : PState) (q : Nat), isOutPin c q →
      (((switch_vid c pin s).1).outputs q = true ↔
        (pin, some q) ∈ c.gpio_pins)) := by
  constructor
  · intro s hs
    induction hs with
    | init base => exact atMostOneHigh_clear c base.outputs
    | step hr hstep ih =>
      cases hstep with
      | press pin _ hpin =>
        rw [switch_vid_outputs]
        exact atMostOneHigh_write c hN pin _
      | poll ended _ =>
        unfold pollStep
        by_cases h : c.loop = false ∧ ended = true
        · rw [if_pos h]
          exact atMostOneHigh_clear c _
        · rw [if_neg h]
          exact ih
  · intro hInj pin s q hq
    rcases hq with ⟨p0, hp0, hs0⟩
    have hp0m : (p0.1, some q) ∈ c.gpio_pins := by
      have : p0 = (p0.1, some q) := by
        cases p0 with
        | mk a b => simpa using hs0
      exact this ▸ hp0
    rcases mem_lastWriter c.gpio_pins p0.1 q hp0m with ⟨i, hl, hm⟩
    rw [switch_vid_outputs, writeOutputs_apply, hl]
    constructor
    · intro h
      have : i = pin := of_decide_eq_true h
      exact this ▸ hm
    · intro h
      have : i = pin := hInj (i, some q) hm (pin, some q) h q rfl rfl
      simp [this]

/-- Configuration used to witness C2: the default pin mapping of the
source (distinct input pins, distinct output pins). -/
def cW2 : Config :=
  { audio := "hdmi", autostart := true, restart_on_press := false,
    videos := ["A.mp4", "B.mp4"],
    gpio_pins := [(26, some 21), (19, some 20), (13, some 16), (6, some 12)],
    loop := true, no_osd := false, shutdown_pin := none, splash := none,
    debug := false }

/-- State used to witness C2. -/
def sW2 : PState :=
  { outputs := fun _ => false, active_vid := none,
    player := { media := none, playing := false, repeatForever := false },
    splashproc := none }

/-- Witness for C2 at the default pin mapping: after pressing pin 26,
output pin 21 is HIGH exactly because entry `(26, 21)` is its mapping. -/
theorem c2_single_active_led_witness :
    ((switch_vid cW2 26 sW2).1).outputs 21 = true ↔
      ((26 : Nat), some (21 : Nat)) ∈ cW2.gpio_pins := by
  apply (c2_single_active_led cW2 (by decide)).2
  · intro p1 h1 p2 h2 q e1 e2
    simp only [cW2, List.mem_cons, List.not_mem_nil, or_false] at h1 h2
    rcases h1 with h | h | h | h <;> rcases h2 with g | g | g | g <;>
      subst h <;> subst g <;> simp_all <;> omega
  · exact ⟨(26, some 21), by simp [cW2], rfl⟩

/-- Configuration refuting the unrestricted ledger reading of C2: two
input pins sharing output pin 27 (construction accepts it: the parser only
rejects duplicate *input* pins, and 1 video ≤ 2 pins). -/
def cX2 : Config :=
  { audio := "hdmi", autostart := false, restart_on_press := false,
    videos := ["a.mp4"], gpio_pins := [(17, some 27), (22, some 27)],
    loop := true, no_osd := false, shutdown_pin := none, splash := none,
    debug := false }

/-- Arbitrary pre-start state for the C2 counterexample. -/
def baseX2 : PState :=
  { outputs := fun _ => false, active_vid := none,
    player := { media := none, playing := false, repeatForever := false },
    splashproc := none }

/-- The post-initialization state of `start` under `cX2`. -/
def s0X2 : PState :=
  { baseX2 with outputs := clearOutputs cX2.gpio_pins baseX2.outputs }

/-- Counterexample to C2 as stated: from the initialized state of the
shared-output configuration `cX2`, `switch_vid 17` completes without
error, `(17, 27)` is a configured pin pair — pin 27 *is* the output pin
mapped to pin 17 — and yet pin 27 ends LOW, because the later entry
`(22, 27)` overwrites it.  So "after `switch_vid p` an output pin is HIGH
iff it is the output pin mapped to `p`" fails on the code. -/
theorem c2_single_active_led_counterexample :
    Reach cX2 s0X2 ∧
    (switch_vid cX2 17 s0X2).2 = none ∧
    ((17 : Nat), some (27 : Nat)) ∈ cX2.gpio_pins ∧
    ((switch_vid cX2 17 s0X2).1).outputs 27 = false :=
  ⟨Reach.init baseX2, rfl, by simp [cX2], rfl⟩

/-- C8: in an idle-poll iteration, if looping is disabled and the engine
reports the stream ended, the body drives every configured output pin LOW
and clears the active-video record; if looping is enabled, the body
changes nothing at all. -/
theorem c8_poll_reset (c : Config) (ended : Bool) (s : PState) :
    (c.loop = false → ended = true →
      (∀ q, isOutPin c q → (pollStep c ended s).outputs q = false) ∧
      (pollStep c ended s).active_vid = none) ∧
    (c.loop = true → pollStep c ended s = s) := by
  constructor
  · intro hl he
    rw [pollStep, if_pos ⟨hl, he⟩]
    refine ⟨fun q hq => ?_, rfl⟩
    simp only
    rw [clearOutputs_apply, if_pos ((hasOut_iff c q).2 hq)]
  · intro hl
    rw [pollStep, if_neg]
    intro h
    rw [hl] at h
    cases h.1

/-- Configuration used to witness C8: `--no-loop` with one LED pin. -/
def cW8 : Config :=
  { audio := "hdmi", autostart := true, restart_on_press := false,
    videos := ["A.mp4"], gpio_pins := [(17, some 27)],
    loop := false, no_osd := false, shutdown_pin := none, splash := none,
    debug := false }

/-- State used to witness C8: `A.mp4` active, its LED HIGH. -/
def sW8 : PState :=
  { outputs := fun q => decide (q = 27), active_vid := some "A.mp4",
    player := { media := some "A.mp4", playing := false,
                repeatForever := false },
    splashproc := none }

/-- Witness for C8: with looping disabled and the stream ended, one poll
iteration dims LED pin 27 and clears the active-video record. -/
theorem c8_poll_reset_witness :
    (pollStep cW8 true sW8).outputs 27 = false ∧
      (pollStep cW8 true sW8).active_vid = none := by
  have h := (c8_poll_reset cW8 true sW8).1 rfl rfl
  exact ⟨h.1 27 ⟨(17, some 27), by simp [cW8], rfl⟩, h.2⟩

/-- C9: pressing a registered pin whose ordinal is beyond the video list
(construction allows fewer videos than pins) raises `IndexError`, but only
after the LED loop has already rewritten the output pins; the video-list
subscript succeeds exactly when the ordinal is below the number of
videos. -/
theorem c9_index_error_after_leds (c : Config) (pin : Nat) (s : PState)
    (hpin : pin ∈ in_pins c) :
    ((switch_vid c pin s).2 = none ↔
      pyIndex (in_pins c) pin < c.videos.length) ∧
    (c.videos.length ≤ pyIndex (in_pins c) pin →
      switch_vid c pin s =
        ({ s with outputs := writeOutputs c.gpio_pins pin s.outputs },
          some PyError.indexError)) := by
  constructor
  · cases hv : c.videos[pyIndex (in_pins c) pin]? with
    | none =>
      rw [List.getElem?_eq_none_iff] at hv
      constructor
      · intro h
        rw [switch_vid, switchAfterLeds] at h
        rw [List.getElem?_eq_none (by omega)] at h
        cases h
      · intro h
        omega
    | some filename =>
      have hlt : pyIndex (in_pins c) pin < c.videos.length :=
        (List.getElem?_eq_some.1 hv).1
      refine ⟨fun _ => hlt, fun _ => ?_⟩
      rw [switch_vid, switchAfterLeds, hv]
      by_cases h : some filename ≠ s.active_vid ∨ c.restart_on_press = true <;>
        simp [h]
  · intro h
    rw [switch_vid, switchAfterLeds, List.getElem?_eq_none h]

/-- Configuration used to witness C9: one video on two pins (construction
permits it: 1 ≤ 2). -/
def cW9 : Config :=
  { audio := "hdmi", autostart := true, restart_on_press := false,
    videos := ["a.mp4"], gpio_pins := [(17, some 27), (22, none)],
    loop := true, no_osd := false, shutdown_pin := none, splash := none,
    debug := false }

/-- State used to witness C9. -/
def sW9 : PState :=
  { outputs := fun _ => false, active_vid := none,
    player := { media := none, playing := false, repeatForever := false },
    splashproc := none }

/-- Witness for C9: pressing pin 22 (ordinal 1, but only 1 video) raises
`IndexError` with the LED writes already applied. -/
theorem c9_index_error_after_leds_witness :
    switch_vid cW9 22 sW9 =
      ({ sW9 with outputs := writeOutputs cW9.gpio_pins 22 sW9.outputs },
        some PyError.indexError) :=
  (c9_index_error_after_leds cW9 22 sW9 (by decide)).2 (by decide)

/-- Python `str.split(sep)` for a one-character separator: splitting the
empty string gives `[""]`, separators at the ends give empty fields. -/
def splitOnChar (sep : Char) (cs : List Char) : List (List Char) :=
  match cs with
  | [] => [[]]
  | c :: rest =>
    let r := splitOnChar sep rest
    if c = sep then [] :: r
    else
      match r with
      | [] => [[c]]
      | g :: gs => (c :: g) :: gs

/-- Accumulate decimal digits; `none` on any non-digit. -/
def parseDigitsAux : List Char → Nat → Option Nat
  | [], acc => some acc
  | c :: cs, acc =>
    if c.isDigit then parseDigitsAux cs (acc * 10 + (c.toNat - 48))
    else none

/-- Python `int(s)` restricted to the plain decimal forms relevant here
(optional minus sign followed by digits); `none` models `ValueError`.
`int`'s whitespace stripping, `+` sign and underscores are omitted. -/
def pyInt (cs : List Char) : Option Int :=
  match cs with
  | [] => none
  | c :: rest =>
    if c = Char.ofNat 45 then
      match rest with
      | [] => none
      | _ => (parseDigitsAux rest 0).map fun n => -(n : Int)
    else (parseDigitsAux cs 0).map fun n => (n : Int)

/-- The loop body of `_GpioParser.__call__` (vidlooper.py lines 21-42),
one comma-separated pair at a time, threading the accumulated dict.
The guard on line 24 is the Python chained comparison
`0 == len(pair_split) > 2`, i.e. `0 == len(pair_split) and
len(pair_split) > 2`, modelled verbatim; the output-pin field is
`pair_split[1]`: `IndexError` (no second field) yields `None`, a
non-numeric second field raises, and any further fields are never
examined.  A duplicate input pin raises. -/
def parsePairs : List (List Char) → List (Int × Option Int) →
    Except String (List (Int × Option Int))
  | [], acc => Except.ok acc
  | pair :: rest, acc =>
    let ps := splitOnChar (Char.ofNat 58) pair
    if ps.length = 0 ∧ ps.length > 2 then
      Except.error "Invalid GPIO pin format"
    else
      match ps with
      | [] => Except.error "Invalid GPIO pin format"
      | p0 :: ptail =>
        match pyInt p0 with
        | none => Except.error "GPIO input pin must be numeric integer"
        | some in_pin =>
          match
            (match ptail with
             | [] => Except.ok none
             | p1 :: _ =>
               match pyInt p1 with
               | none =>
                 Except.error "GPIO output pin must be numeric integer"
               | some o => Except.ok (some o) :
            Except String (Option Int)) with
          | Except.error e => Except.error e
          | Except.ok out_pin =>
            if acc.any fun p => decide (p.1 = in_pin) then
              Except.error "Duplicate GPIO input pin"
            else parsePairs rest (acc ++ [(in_pin, out_pin)])

/-- `_GpioParser.__call__` (lines 18-44): split the spec string on commas
and fold the pairs into the dict. -/
def gpioParse (values : String) : Except String (List (Int × Option Int)) :=
  parsePairs (splitOnChar (Char.ofNat 44) values.data) []

/-- C3 (evaluating the code at the failing input): the three-field entry
`"17:27:5"` is *accepted* as `{17: 27}` — the malformed-entry guard
`0 == len(pair_split) > 2` is a chained comparison that can never hold,
so the extra field `5` is silently dropped instead of aborting the
parse. -/
theorem c3_extra_fields_accepted :
    gpioParse "17:27:5" = Except.ok [((17 : Int), some (27 : Int))] := by
  rfl

/-- The names bound at module scope of vidlooper.py: its import statements
(lines 6-13 bind `GPIO`, `os`, `sys`, `time`, `Lock`, `signal`,
`argparse`, `vlc`) and its top-level definitions (`_GpioParser`,
`VidLooper`, `main`), plus the implicit module dunders.  No
`from subprocess import call, Popen` (or any `subprocess` import) appears
anywhere in the file. -/
def moduleScopeNames : List String :=
  ["GPIO", "os", "sys", "time", "Lock", "signal", "argparse", "vlc",
   "_GpioParser", "VidLooper", "main", "__name__", "__file__", "__doc__"]

/-- The Python 3 built-in names this module could fall back to; the
builtins namespace has no entry named `call` or `Popen` (those live in the
`subprocess` module and must be imported). -/
def pythonBuiltins : List String :=
  ["int", "len", "print", "sorted", "tuple", "list", "dict", "str",
   "range", "setattr", "getattr", "vars", "type", "object", "property",
   "open", "super", "isinstance", "ValueError", "IndexError", "KeyError",
   "FileNotFoundError", "Exception", "AssertionError", "NameError",
   "True", "False", "None"]

/-- Global name lookup as performed inside a function body of this module:
module scope first, then builtins. -/
def resolvesGlobal (n : String) : Bool :=
  moduleScopeNames.contains n || pythonBuiltins.contains n

/-- The shutdown-pin callback registered by `start` (line 145):
`lambda _: call(['shutdown', '-h', 'now'], shell=False)`.  Its body
evaluates the global name `call`; when that name is unbound the lambda
raises `NameError` instead of running any command.  On success it would
issue the argument vector of the host shutdown command. -/
def shutdownCallback : Except PyError (List String) :=
  if resolvesGlobal "call" then Except.ok ["shutdown", "-h", "now"]
  else Except.error (PyError.nameError "call")

/-- What `start` does with the shutdown pin (lines 141-146): when one is
configured, a debounced falling-edge callback is registered whose body is
`shutdownCallback`; otherwise nothing. -/
def shutdownRegistration (c : Config) : Option (Except PyError (List String)) :=
  match c.shutdown_pin with
  | some _ => some shutdownCallback
  | none => none

/-- C4 (evaluating the code at the failing input): for any configuration
with a shutdown pin, the registered falling-edge callback does not issue
the shutdown command — the name `call` resolves nowhere in the module, so
invoking the callback raises `NameError: name 'call' is not defined`. -/
theorem c4_shutdown_callback_name_error :
    shutdownCallback = Except.error (PyError.nameError "call") ∧
      resolvesGlobal "call" = false := by
  constructor <;> rfl

/-- The autostart branch of `start` (lines 148-153): with autostart
enabled, a configured splash image is handed to
`Popen(['fbi', '--noverbose', '-a', self.splash])` — whose name lookup of
`Popen` can raise `NameError` — and otherwise the first input pin's video
is switched to via `switch_vid(self.in_pins[0])` (raising `IndexError`
when there are no pins). -/
def autostartStep (c : Config) (s : PState) : Except PyError PState :=
  if c.autostart then
    match c.splash with
    | some img =>
      if resolvesGlobal "Popen" then
        Except.ok { s with splashproc := some img }
      else Except.error (PyError.nameError "Popen")
    | none =>
      match in_pins c with
      | [] => Except.error PyError.indexError
      | p :: _ =>
        match switch_vid c p s with
        | (s1, none) => Except.ok s1
        | (_, some e) => Except.error e
  else Except.ok s

/-- Configuration for the C5 failing input: autostart with a splash
image. -/
def cW5s : Config :=
  { audio := "hdmi", autostart := true, restart_on_press := false,
    videos := ["A.mp4"], gpio_pins := [(17, some 27)],
    loop := true, no_osd := false, shutdown_pin := none,
    splash := some "splash.png", debug := false }

/-- The same configuration without a splash image. -/
def cW5n : Config :=
  { cW5s with splash := none }

/-- Idle state before the autostart branch runs. -/
def sW5 : PState :=
  { outputs := fun _ => false, active_vid := none,
    player := { media := none, playing := false, repeatForever := false },
    splashproc := none }

/-- C5 (evaluating the code at the failing input): with autostart enabled
and a splash image configured, `start` does not launch the image viewer —
the name `Popen` resolves nowhere in the module, so the branch raises
`NameError: name 'Popen' is not defined`.  Without a splash image the
branch does run `switch_vid` on the first input pin, as the claim's second
half says. -/
theorem c5_splash_launch_name_error :
    autostartStep cW5s sW5 = Except.error (PyError.nameError "Popen") ∧
      autostartStep cW5n sW5 = Except.ok (switch_vid cW5n 17 sW5).1 := by
  constructor <;> rfl

/-- `VidLooper._GPIO_PIN_DEFAULT` (lines 50-55). -/
def GPIO_PIN_DEFAULT : List (Nat × Option Nat) :=
  [(26, some 21), (19, some 20), (13, some 16), (6, some 12)]

/-- `VidLooper._VIDEO_EXTS` (line 49). -/
def videoExts : List String := [".mp4", ".m4v", ".mov", ".avi", ".mkv"]

/-- The keyword arguments of `VidLooper.__init__` (lines 61-63), together
with the directory listing `os.listdir(video_dir)` it consults when no
explicit videos are given.  `videos = []` models the falsy defaults
(`None` from the constructor, `()` from the CLI). -/
structure InitArgs where
  audio : String
  autostart : Bool
  restart_on_press : Bool
  video_dir : String
  dirFiles : List String
  videos : List String
  gpio_pins : Option (List (Nat × Option Nat))
  loop : Bool
  no_osd : Bool
  shutdown_pin : Option Nat
  splash : Option String
  debug : Bool
deriving DecidableEq, Repr

/-- Insert into a lexicographically sorted list of strings. -/
def insertSorted (x : String) : List String → List String
  | [] => [x]
  | y :: ys => if x < y then x :: y :: ys else y :: insertSorted x ys

/-- Python `sorted` on file names (lexicographic). -/
def sortStrings (l : List String) : List String :=
  l.foldr insertSorted []

/-- Index of the last occurrence of `c`, if any. -/
def lastIdx (c : Char) : List Char → Option Nat
  | [] => none
  | x :: xs =>
    match lastIdx c xs with
    | some i => some (i + 1)
    | none => if x = c then some 0 else none

/-- `os.path.splitext(f)[1]` for a bare file name: the suffix from the
last dot, unless every character before that dot is itself a dot (so
`".bashrc"` has no extension). -/
def splitextExt (f : String) : String :=
  match lastIdx (Char.ofNat 46) f.data with
  | none => ""
  | some i =>
    if (f.data.take i).all fun ch => ch = Char.ofNat 46 then ""
    else String.mk (f.data.drop i)

/-- `os.path.join(d, f)` for a relative bare file name under a directory
with no trailing separator (the case exercised here). -/
def joinPath (d f : String) : String := d ++ "/" ++ f

/-- The video-list resolution of `__init__` (lines 69-80): an explicit,
non-empty list is checked path by path for existence (the first missing
one raises `FileNotFoundError`); otherwise the directory listing is
sorted, filtered to the recognized extensions and joined onto the
directory, and an empty scan raises the "No videos found" exception. -/
def resolveVideos (a : InitArgs) (pathExists : String → Bool) :
    Except InitError (List String) :=
  if a.videos ≠ [] then
    match a.videos.find? fun v => !(pathExists v) with
    | some v => Except.error (InitError.fileNotFound v)
    | none => Except.ok a.videos
  else
    match ((sortStrings a.dirFiles).filter
        fun f => videoExts.contains (splitextExt f)).map
        fun f => joinPath a.video_dir f with
    | [] => Except.error (InitError.noVideos a.video_dir)
    | v :: vs => Except.ok (v :: vs)

/-- The pin mapping `__init__` uses (lines 64-66): the argument, or a copy
of the class default when none is given. -/
def effectivePins (a : InitArgs) : List (Nat × Option Nat) :=
  match a.gpio_pins with
  | none => GPIO_PIN_DEFAULT
  | some g => g

/-- `VidLooper.__init__` (lines 61-95): resolve the videos, check the
assert `len(self.videos) <= len(self.gpio_pins)` (lines 82-83), and only
then create the playback engine (line 94).  The first component lists the
external effects performed; every error path performs none (in
particular, `__init__` never touches GPIO — that happens in `start`). -/
def initVidLooper (a : InitArgs) (pathExists : String → Bool) :
    List Effect × Except InitError Config :=
  match resolveVideos a pathExists with
  | Except.error e => ([], Except.error e)
  | Except.ok vids =>
    if vids.length ≤ (effectivePins a).length then
      ([Effect.vlcInstance a.audio],
        Except.ok
          { audio := a.audio, autostart := a.autostart,
            restart_on_press := a.restart_on_press, videos := vids,
            gpio_pins := effectivePins a, loop := a.loop,
            no_osd := a.no_osd, shutdown_pin := a.shutdown_pin,
            splash := a.splash, debug := a.debug })
    else ([], Except.error InitError.assertionError)

/-- Whether construction succeeded. -/
def constructionOk (r : List Effect × Except InitError Config) : Bool :=
  match r.2 with
  | Except.ok _ => true
  | Except.error _ => false

/-- C6 (amended): for a configuration with `N ≥ 1` explicitly listed
videos, all existing on disk, and `M` configured input pins, construction
succeeds if and only if `N ≤ M` (the assert fails otherwise). -/
theorem c6_construction_iff_enough_pins (a : InitArgs)
    (pathExists : String → Bool) (hne : a.videos ≠ [])
    (hex : ∀ v ∈ a.videos, pathExists v = true) :
    constructionOk (initVidLooper a pathExists) = true ↔
      a.videos.length ≤ (effectivePins a).length := by
  have hres : resolveVideos a pathExists = Except.ok a.videos := by
    rw [resolveVideos, if_pos hne]
    have : a.videos.find? (fun v => !(pathExists v)) = none := by
      rw [List.find?_eq_none]
      intro v hv
      rw [hex v hv]
      simp
    rw [this]
  rw [initVidLooper, hres]
  by_cases h : a.videos.length ≤ (effectivePins a).length <;>
    simp [h, constructionOk]

/-- Arguments used to witness C6: two existing videos on the default
four-pin mapping. -/
def aW6 : InitArgs :=
  { audio := "hdmi", autostart := true, restart_on_press := false,
    video_dir := "/videos", dirFiles := [], videos := ["a.mp4", "b.mp4"],
    gpio_pins := none, loop := true, no_osd := false, shutdown_pin := none,
    splash := none, debug := false }

/-- Witness for C6: two videos, four default pins, construction
succeeds. -/
theorem c6_construction_iff_enough_pins_witness :
    constructionOk (initVidLooper aW6 fun _ => true) = true ↔
      aW6.videos.length ≤ (effectivePins aW6).length :=
  c6_construction_iff_enough_pins aW6 (fun _ => true) (by decide)
    (by intro v hv; rfl)

/-- Arguments refuting C6 as stated: an empty explicit video list (the
falsy CLI default) with an empty video directory. -/
def aX6 : InitArgs :=
  { audio := "hdmi", autostart := true, restart_on_press := false,
    video_dir := "/videos", dirFiles := [], videos := [],
    gpio_pins := none, loop := true, no_osd := false, shutdown_pin := none,
    splash := none, debug := false }

/-- Counterexample to C6 as stated: with `N = 0` videos (all of them
vacuously existing) and `M = 4` configured input pins, `N ≤ M` holds and
yet construction fails — the falsy empty list sends `__init__` into the
directory scan, which finds nothing and raises the "No videos found"
exception. -/
theorem c6_construction_iff_enough_pins_counterexample :
    (initVidLooper aX6 fun _ => true).2 =
        Except.error (InitError.noVideos "/videos") ∧
      aX6.videos.length = 0 ∧ (effectivePins aX6).length = 4 := by
  refine ⟨rfl, rfl, rfl⟩

/-- C7: an explicit video list with a missing path makes construction
fail with `FileNotFoundError` before any external effect: no playback
engine is created and no GPIO pin is configured (the effect list of the
error path is empty). -/
theorem c7_missing_video_fails_before_effects (a : InitArgs)
    (pathExists : String → Bool) (hne : a.videos ≠ [])
    (hbad : ∃ v ∈ a.videos, pathExists v = false) :
    (initVidLooper a pathExists).1 = [] ∧
      ∃ v, (initVidLooper a pathExists).2 =
        Except.error (InitError.fileNotFound v) := by
  have hfind : a.videos.find? (fun v => !(pathExists v)) ≠ none := by
    intro hnone
    rw [List.find?_eq_none] at hnone
    rcases hbad with ⟨v, hv, hfalse⟩
    exact hnone v hv (by rw [hfalse]; simp)
  cases hf : a.videos.find? fun v => !(pathExists v) with
  | none => exact absurd hf hfind
  | some v =>
    have hres : resolveVideos a pathExists =
        Except.error (InitError.fileNotFound v) := by
      rw [resolveVideos, if_pos hne, hf]
    rw [initVidLooper, hres]
    exact ⟨rfl, v, rfl⟩

/-- Arguments used to witness C7. -/
def aW7 : InitArgs :=
  { audio := "hdmi", autostart := true, restart_on_press := false,
    video_dir := "/videos", dirFiles := [], videos := ["ghost.mp4"],
    gpio_pins := none, loop := true, no_osd := false, shutdown_pin := none,
    splash := none, debug := false }

/-- Witness for C7: a single nonexistent video. -/
theorem c7_missing_video_fails_before_effects_witness :
    (initVidLooper aW7 fun _ => false).1 = [] ∧
      ∃ v, (initVidLooper aW7 fun _ => false).2 =
        Except.error (InitError.fileNotFound v) :=
  c7_missing_video_fails_before_effects aW7 (fun _ => false) (by decide)
    ⟨"ghost.mp4", by simp [aW7], rfl⟩

/-- Overwrite the stored `no_osd` flag of a constructed controller. -/
def setNoOsd (c : Config) (b : Bool) : Config := { c with no_osd := b }

/-- Overwrite the `no_osd` constructor argument. -/
def setArgsNoOsd (a : InitArgs) (b : Bool) : InitArgs := { a with no_osd := b }

/-- Forget the stored `no_osd` flag (the one field `__init__` writes at
line 90 and nothing ever reads). -/
def eraseNoOsd (c : Config) : Config := { c with no_osd := false }

/-- Events are insensitive to the stored `no_osd` flag. -/
theorem step_setNoOsd (c : Config) (b : Bool) (s t : PState) :
    Step (setNoOsd c b) s t ↔ Step c s t := by
  constructor <;> intro h <;> cases h with
  | press pin _ hpin => exact Step.press pin _ hpin
  | poll ended _ => exact Step.poll ended _

/-- Reachability is insensitive to the stored `no_osd` flag. -/
theorem reach_setNoOsd (c : Config) (b : Bool) (t : PState) :
    Reach (setNoOsd c b) t ↔ Reach c t := by
  constructor <;> intro h <;> induction h with
  | init base => exact Reach.init base
  | step hr hstep ih =>
    first
    | exact Reach.step ih ((step_setNoOsd c b _ _).1 hstep)
    | exact Reach.step ih ((step_setNoOsd c b _ _).2 hstep)

/-- Construction is insensitive to `no_osd` except for storing it. -/
theorem initVidLooper_setNoOsd (a : InitArgs) (b : Bool)
    (pathExists : String → Bool) :
    (initVidLooper (setArgsNoOsd a b) pathExists).1 =
        (initVidLooper a pathExists).1 ∧
      Except.map eraseNoOsd (initVidLooper (setArgsNoOsd a b) pathExists).2 =
        Except.map eraseNoOsd (initVidLooper a pathExists).2 := by
  have hr : resolveVideos (setArgsNoOsd a b) pathExists =
      resolveVideos a pathExists := rfl
  rw [initVidLooper, initVidLooper, hr]
  cases hres : resolveVideos a pathExists with
  | error e => exact ⟨rfl, rfl⟩
  | ok vids =>
    have he : effectivePins (setArgsNoOsd a b) = effectivePins a := rfl
    simp only [he]
    by_cases h : vids.length ≤ (effectivePins a).length <;>
      simp [h, setArgsNoOsd, eraseNoOsd, Except.map]

/-- C10: the `no_osd` flag is write-only — every operation of the
program (the pin-switch callback, the idle-poll body, the autostart
branch, the shutdown-pin registration, construction up to the stored flag
itself, and the whole reachable state space) is identical for the two
values of the flag. -/
theorem c10_no_osd_write_only (c : Config) (b : Bool) (pin : Nat)
    (ended : Bool) (s : PState) (a : InitArgs)
    (pathExists : String → Bool) :
    switch_vid (setNoOsd c b) pin s = switch_vid c pin s ∧
    pollStep (setNoOsd c b) ended s = pollStep c ended s ∧
    autostartStep (setNoOsd c b) s = autostartStep c s ∧
    shutdownRegistration (setNoOsd c b) = shutdownRegistration c ∧
    (initVidLooper (setArgsNoOsd a b) pathExists).1 =
      (initVidLooper a pathExists).1 ∧
    Except.map eraseNoOsd (initVidLooper (setArgsNoOsd a b) pathExists).2 =
      Except.map eraseNoOsd (initVidLooper a pathExists).2 ∧
    (∀ t, Reach (setNoOsd c b) t ↔ Reach c t) :=
  ⟨rfl, rfl, rfl, rfl, (initVidLooper_setNoOsd a b pathExists).1,
    (initVidLooper_setNoOsd a b pathExists).2, reach_setNoOsd c b⟩
